import Mathlib

/-!
Verification development for a small Elasticsearch client program
(src/src/main.rs).  The program loads three environment values, builds a
cloud client, ensures a "products" index exists (existence probe, then a
create request with a fixed mapping when the probe is not a success), and
bulk-loads seven sample product documents using the bulk API's
newline-delimited paired-lines convention with the create action.

The embedding below is a shallow one: JSON values are a small inductive
AST with rational numbers, every network call's outcome is passed in as an
explicit parameter (oracle style: a transport error or an HTTP response),
and the observable behaviour of main is a trace of issued requests,
printed events and the process exit code.
-/

namespace ElasticDemo

/-- JSON value AST mirroring serde_json::Value as used by the program.
Numbers are rationals (the program does no arithmetic on them). -/
inductive Json where
  | null : Json
  | str : String → Json
  | num : Rat → Json
  | bool : Bool → Json
  | arr : List Json → Json
  | obj : List (String × Json) → Json

/-- An HTTP response as observed by the client: a status code and a
decoded JSON body. -/
structure HttpResponse where
  status : Nat
  body : Json

/-- Transport-level failure (connection loss, timeout); the error type
behind the question-mark operator on send calls. -/
abbrev TransportErr := String

/-- reqwest StatusCode::is_success as used at src/src/main.rs:264 and 273:
true exactly for the 2xx range. -/
def statusIsSuccess (s : Nat) : Bool :=
  decide (200 ≤ s) && decide (s < 300)

/-- The action-descriptor line pushed before each document at
src/src/main.rs:84-88: a one-field object whose only key is "create",
with an empty object as its value. -/
def createInstruction : Json :=
  Json.obj [("create", Json.obj [])]

/-- The loop body of bulk_create_by_index (src/src/main.rs:82-90): for
each operation, push the create action descriptor, then the operation
itself, onto the bulk body. -/
def bulkCreateBody : List Json → List Json
  | [] => []
  | op :: rest => createInstruction :: op :: bulkCreateBody rest

/-- get_product_mapping (src/src/main.rs:103-130): the fixed index
mapping submitted on index creation. -/
def get_product_mapping : Json :=
  Json.obj [("mappings", Json.obj [("properties", Json.obj [
    ("name", Json.obj [("type", Json.str "text"), ("analyzer", Json.str "standard")]),
    ("description", Json.obj [("type", Json.str "text"), ("analyzer", Json.str "standard")]),
    ("category", Json.obj [("type", Json.str "keyword")]),
    ("brand", Json.obj [("type", Json.str "keyword")]),
    ("price", Json.obj [("type", Json.str "float")]),
    ("rating", Json.obj [("type", Json.str "float")])
  ])])]

/-- generate_product_data (src/src/main.rs:184-243): the seven fixed
sample documents that are bulk-loaded. -/
def generate_product_data : List Json :=
  [ Json.obj [("name", Json.str "Smartphone"),
      ("description", Json.str "A smartphone with a high-resolution screen."),
      ("category", Json.str "Electronics"), ("brand", Json.str "TechBrand"),
      ("price", Json.num 699.99), ("rating", Json.num 4.5)],
    Json.obj [("name", Json.str "Laptop"),
      ("description", Json.str "A powerful laptop for professionals."),
      ("category", Json.str "Computers"), ("brand", Json.str "CompTech"),
      ("price", Json.num 1299.99), ("rating", Json.num 4.7)],
    Json.obj [("name", Json.str "Headphones"),
      ("description", Json.str "Noise-cancelling over-ear headphones."),
      ("category", Json.str "Audio"), ("brand", Json.str "SoundMax"),
      ("price", Json.num 199.99), ("rating", Json.num 4.3)],
    Json.obj [("name", Json.str "Smartwatch"),
      ("description", Json.str "A stylish smartwatch with fitness tracking."),
      ("category", Json.str "Wearables"), ("brand", Json.str "WristTech"),
      ("price", Json.num 299.99), ("rating", Json.num 4.2)],
    Json.obj [("name", Json.str "Tablet"),
      ("description", Json.str "A lightweight tablet with a 10-inch display."),
      ("category", Json.str "Tablets"), ("brand", Json.str "TabBrand"),
      ("price", Json.num 499.99), ("rating", Json.num 4.4)],
    Json.obj [("name", Json.str "Gaming Console"),
      ("description", Json.str "A next-gen gaming console with 4K resolution."),
      ("category", Json.str "Gaming"), ("brand", Json.str "GameBox"),
      ("price", Json.num 499.99), ("rating", Json.num 4.8)],
    Json.obj [("name", Json.str "Wireless Speaker"),
      ("description", Json.str "A portable wireless speaker with deep bass."),
      ("category", Json.str "Audio"), ("brand", Json.str "SoundWave"),
      ("price", Json.num 149.99), ("rating", Json.num 4.6)] ]

/-- The multi_match query from the search code path of main
(src/src/main.rs:295-304). -/
def sampleQuery : Json :=
  Json.obj [("query", Json.obj [("multi_match", Json.obj [
    ("query", Json.str "toothbrush"),
    ("fields", Json.arr [Json.str "name", Json.str "description"])])])]

/-- The body of an engine rejection of a create request for an index that
already exists (a resource_already_exists conflict). -/
def conflictBody : Json :=
  Json.obj [("error", Json.obj [("type", Json.str "resource_already_exists_exception")])]

/-- The body of an engine 404 answer to a search against an index that
does not exist. -/
def indexNotFoundBody : Json :=
  Json.obj [("error", Json.obj [("type", Json.str "index_not_found_exception")])]

/-- A request issued by the client, as recorded in the execution trace. -/
inductive Request where
  | indicesExists : String → Request
  | indicesCreate : String → Json → Request
  | bulk : String → List Json → Request

/-- An event printed by main, abstracting the println calls:
indexExists and indexNotExists are the two probe-branch messages
(src/src/main.rs:267 and 269), indexCreated is the create success message
(line 274), createFailed carries the response body of a failed create
(line 276), and bulkRespBody is the printed bulk response body
(line 322). -/
inductive PrintEvent where
  | indexExists : String → PrintEvent
  | indexNotExists : String → PrintEvent
  | indexCreated : PrintEvent
  | createFailed : Json → PrintEvent
  | bulkRespBody : Json → PrintEvent

/-- Observable behaviour of a run of main: the requests issued in order,
the events printed, and the process exit code (0 on Ok, 1 when main
returns an error). -/
structure Exec where
  requests : List Request
  prints : List PrintEvent
  exitCode : Nat

/-- The three env::var reads at src/src/main.rs:249-251, each behind the
question-mark operator: the first missing variable aborts main. -/
def requiredEnv (env : String → Option String) : Option (String × String × String) :=
  match env "CLOUD_ID" with
  | none => none
  | some cloudId =>
    match env "API_KEY" with
    | none => none
    | some apiKey =>
      match env "API_KEY_ID" with
      | none => none
      | some apiKeyId => some (cloudId, apiKey, apiKeyId)

/-- The bulk stage of main (src/src/main.rs:316-322): build the bulk body
from the sample documents, send it, decode and print the response body.
A transport error on the bulk call aborts main with exit code 1. -/
def runBulkStage (reqs : List Request) (printed : List PrintEvent)
    (bulkOutcome : Except TransportErr HttpResponse) : Exec :=
  match bulkOutcome with
  | Except.error _ =>
      { requests := reqs ++ [Request.bulk "products" (bulkCreateBody generate_product_data)],
        prints := printed, exitCode := 1 }
  | Except.ok bulkResp =>
      { requests := reqs ++ [Request.bulk "products" (bulkCreateBody generate_product_data)],
        prints := printed ++ [PrintEvent.bulkRespBody bulkResp.body], exitCode := 0 }

/-- The provisioning and ingestion flow of main after configuration
succeeds (src/src/main.rs:263-322).  existsOutcome, createOutcome and
bulkOutcome are the transport outcomes of the three send calls, supplied
as oracle parameters; a branch that never issues a call never inspects
its outcome. -/
def runProvisionAndBulk
    (existsOutcome createOutcome bulkOutcome : Except TransportErr HttpResponse) : Exec :=
  match existsOutcome with
  | Except.error _ =>
      { requests := [Request.indicesExists "products"], prints := [], exitCode := 1 }
  | Except.ok existsResp =>
    if statusIsSuccess existsResp.status then
      runBulkStage [Request.indicesExists "products"]
        [PrintEvent.indexExists "products"] bulkOutcome
    else
      match createOutcome with
      | Except.error _ =>
          { requests := [Request.indicesExists "products",
              Request.indicesCreate "products" get_product_mapping],
            prints := [PrintEvent.indexNotExists "products"], exitCode := 1 }
      | Except.ok createResp =>
        if statusIsSuccess createResp.status then
          runBulkStage [Request.indicesExists "products",
              Request.indicesCreate "products" get_product_mapping]
            [PrintEvent.indexNotExists "products", PrintEvent.indexCreated] bulkOutcome
        else
          runBulkStage [Request.indicesExists "products",
              Request.indicesCreate "products" get_product_mapping]
            [PrintEvent.indexNotExists "products", PrintEvent.createFailed createResp.body]
            bulkOutcome

/-- main (src/src/main.rs:246-326): read the three required environment
values, then run the provisioning and ingestion flow.  A missing value
aborts before any client construction or request. -/
def runMain (env : String → Option String)
    (existsOutcome createOutcome bulkOutcome : Except TransportErr HttpResponse) : Exec :=
  match requiredEnv env with
  | none => { requests := [], prints := [], exitCode := 1 }
  | some _ => runProvisionAndBulk existsOutcome createOutcome bulkOutcome

/-- An environment with every variable set. -/
def envAll : String → Option String := fun _ => some "x"

/-- An environment with no variable set. -/
def envNone : String → Option String := fun _ => none

/-- bulk_create_by_index (src/src/main.rs:79-99): build the bulk body
from the operations, send it, and return the transport outcome unchanged
(the question-mark operator re-raises a transport error; any received
response is returned Ok). -/
def bulk_create_by_index (operations : List Json)
    (send : List Json → Except TransportErr HttpResponse) : Except TransportErr HttpResponse :=
  let bulk_body := bulkCreateBody operations
  match send bulk_body with
  | Except.error e => Except.error e
  | Except.ok response => Except.ok response

/-- search (src/src/main.rs:42-49 and 137-144): send the query body to
the index and return the transport outcome unchanged; the status code of
a received response is never inspected. -/
def search (indexName : String) (body : Json)
    (send : String → Json → Except TransportErr HttpResponse) : Except TransportErr HttpResponse :=
  match send indexName body with
  | Except.error e => Except.error e
  | Except.ok response => Except.ok response

/-- Engine state: the set of indices existing on the cluster, modelling
the external search engine the spec treats as a black box. -/
abbrev EngineState := List String

/-- Model of the engine's HEAD index-exists endpoint: a success status
when the index is present, 404 otherwise. -/
def engineExists (st : EngineState) (name : String) : HttpResponse :=
  if name ∈ st then { status := 200, body := Json.null }
  else { status := 404, body := Json.null }

/-- Model of the engine's index-create endpoint: when the index is
present, reject with a 400 resource_already_exists conflict and leave the
state unchanged; otherwise record the index and answer 200. -/
def engineCreate (st : EngineState) (name : String) : HttpResponse × EngineState :=
  if name ∈ st then ({ status := 400, body := conflictBody }, st)
  else ({ status := 200, body := Json.null }, name :: st)

/-- Outcome of one run of the ensure-index flow of main. -/
inductive IndexOutcome where
  | created : IndexOutcome
  | alreadyExists : IndexOutcome
  | createFailed : Json → IndexOutcome

/-- The ensure-index flow of main (src/src/main.rs:263-278) run against
the engine model: probe existence, classify via statusIsSuccess, and when
the probe is not a success issue a create request.  Returns the outcome,
the new engine state, and whether a create request was issued. -/
def ensureIndex (_mapping : Json) (st : EngineState) (name : String) :
    IndexOutcome × EngineState × Bool :=
  let existsResp := engineExists st name
  if statusIsSuccess existsResp.status then (IndexOutcome.alreadyExists, st, false)
  else
    let created := engineCreate st name
    if statusIsSuccess created.1.status then (IndexOutcome.created, created.2, true)
    else (IndexOutcome.createFailed created.1.body, created.2, true)

/-- Model of the engine's bulk endpoint item list, from the spec's
BulkResult description: the newline-delimited body is consumed as
action-line and document-line pairs, in order, and one itemized outcome
is produced per pair; itemOutcome is the engine's (black-box) per-item
verdict. -/
def engineBulkItems (itemOutcome : Json → Json → Json) : List Json → List Json
  | action :: doc :: rest => itemOutcome action doc :: engineBulkItems itemOutcome rest
  | _ => []

/-- First value bound to a key in a JSON object field list. -/
def lookupField : List (String × Json) → String → Option Json
  | [], _ => none
  | (k, v) :: rest, key => if k = key then some v else lookupField rest key

/-- The properties object of an index mapping: the field list under
mappings.properties. -/
def mappingProperties (j : Json) : Option (List (String × Json)) :=
  match j with
  | Json.obj fields =>
    match lookupField fields "mappings" with
    | some (Json.obj mfields) =>
      match lookupField mfields "properties" with
      | some (Json.obj props) => some props
      | _ => none
    | _ => none
  | _ => none

/-! Helper lemmas -/

theorem bulkCreateBody_length (ops : List Json) :
    (bulkCreateBody ops).length = 2 * ops.length := by
  induction ops with
  | nil => rfl
  | cons d rest ih =>
    simp only [bulkCreateBody, List.length_cons, ih]
    omega

theorem bulkCreateBody_action_line (ops : List Json) (i : Nat) :
    (bulkCreateBody ops)[2 * i]? = (ops[i]?).map (fun _ => createInstruction) := by
  induction ops generalizing i with
  | nil => simp [bulkCreateBody]
  | cons d rest ih =>
    cases i with
    | zero => simp [bulkCreateBody]
    | succ n =>
      have h2 : 2 * (n + 1) = 2 * n + 1 + 1 := by ring
      rw [h2]
      simp only [bulkCreateBody, List.getElem?_cons_succ]
      exact ih n

theorem bulkCreateBody_doc_line (ops : List Json) (i : Nat) :
    (bulkCreateBody ops)[2 * i + 1]? = ops[i]? := by
  induction ops generalizing i with
  | nil => simp [bulkCreateBody]
  | cons d rest ih =>
    cases i with
    | zero => simp [bulkCreateBody]
    | succ n =>
      have h2 : 2 * (n + 1) + 1 = 2 * n + 1 + 1 + 1 := by ring
      rw [h2]
      simp only [bulkCreateBody, List.getElem?_cons_succ]
      exact ih n

theorem engineBulkItems_bulkCreateBody (f : Json → Json → Json) (docs : List Json) :
    engineBulkItems f (bulkCreateBody docs) = docs.map (fun d => f createInstruction d) := by
  induction docs with
  | nil => rfl
  | cons d rest ih =>
    simp only [bulkCreateBody, engineBulkItems, List.map_cons, ih]

/-! Claim theorems -/

/-- C1: the bulk ingestor builds the bulk request body as pairs of lines
in input order: the body has exactly twice as many lines as documents,
line 2i is the action descriptor, line 2i+1 is document i, and the
action descriptor is the one-key create object (never index, update or
delete). -/
theorem bulk_body_paired_create_lines (operations : List Json) :
    (bulkCreateBody operations).length = 2 * operations.length ∧
    (∀ i, (bulkCreateBody operations)[2 * i]? =
      (operations[i]?).map (fun _ => createInstruction)) ∧
    (∀ i, (bulkCreateBody operations)[2 * i + 1]? = operations[i]?) ∧
    createInstruction = Json.obj [("create", Json.obj [])] :=
  ⟨bulkCreateBody_length operations,
   fun i => bulkCreateBody_action_line operations i,
   fun i => bulkCreateBody_doc_line operations i,
   rfl⟩

/-- C6: bulk_create_by_index returns exactly the transport outcome of the
send call on the built body: it is an error precisely when the transport
fails, and any received HTTP response — whatever its status code or
per-item body content — is returned Ok, unchanged. -/
theorem bulk_create_transport_only (operations : List Json)
    (send : List Json → Except TransportErr HttpResponse) :
    bulk_create_by_index operations send = send (bulkCreateBody operations) := by
  cases h : send (bulkCreateBody operations) <;> simp [bulk_create_by_index, h]

/-- C7 counterexample: a search against a non-existent index, answered by
the engine with a 404 response, is returned as Ok carrying that response
— not as an error — because search never inspects the status code. -/
theorem search_404_returns_ok :
    search "nonexistent" sampleQuery (fun _ _ => Except.ok ⟨404, indexNotFoundBody⟩)
      = Except.ok ⟨404, indexNotFoundBody⟩ := rfl

/-- C7 amended: search returns exactly the transport outcome of the send
call: any received response is returned Ok regardless of its status code
(a non-2xx answer, e.g. for a non-existent index or a malformed query, is
not raised as an error); only a transport failure yields an error. -/
theorem search_transport_only (indexName : String) (body : Json)
    (send : String → Json → Except TransportErr HttpResponse) :
    search indexName body send = send indexName body := by
  cases h : send indexName body <;> simp [search, h]

/-- C8: for every document sequence (in particular every non-empty one)
and every per-item engine verdict, the itemized outcome list decoded from
the bulk response has exactly one item per document, and item i is the
verdict on document i — outcomes are in input order and correlate back to
source records. -/
theorem bulk_result_itemized_in_order (f : Json → Json → Json) (docs : List Json) :
    (engineBulkItems f (bulkCreateBody docs)).length = docs.length ∧
    ∀ i : Nat, (engineBulkItems f (bulkCreateBody docs))[i]? =
      (docs[i]?).map (fun d => f createInstruction d) := by
  rw [engineBulkItems_bulkCreateBody]
  constructor
  · simp
  · intro i
    simp [Option.map]

theorem statusIsSuccess_iff (s : Nat) :
    statusIsSuccess s = true ↔ 200 ≤ s ∧ s < 300 := by
  simp [statusIsSuccess]

/-- C2: starting from a cluster state without the index, the ensure-index
flow run twice in sequence yields Created the first time and
AlreadyExists the second time; the second run issues no create request
and leaves the cluster state unchanged; and on any state already holding
the index the flow issues no create request and has no side effect. -/
theorem ensure_index_idempotent (mapping : Json) (st : EngineState) (name : String)
    (h : name ∉ st) (st' : EngineState) (h' : name ∈ st') :
    (ensureIndex mapping st name).1 = IndexOutcome.created ∧
    ensureIndex mapping (ensureIndex mapping st name).2.1 name =
      (IndexOutcome.alreadyExists, (ensureIndex mapping st name).2.1, false) ∧
    ensureIndex mapping st' name = (IndexOutcome.alreadyExists, st', false) := by
  have hexists : ∀ s : EngineState, name ∈ s →
      ensureIndex mapping s name = (IndexOutcome.alreadyExists, s, false) := by
    intro s hs
    simp [ensureIndex, engineExists, statusIsSuccess, hs]
  have hfirst : ensureIndex mapping st name = (IndexOutcome.created, name :: st, true) := by
    simp [ensureIndex, engineExists, engineCreate, statusIsSuccess, h]
  refine ⟨by rw [hfirst], ?_, hexists st' h'⟩
  rw [hfirst]
  exact hexists (name :: st) (List.mem_cons_self name st)

/-- C2 witness: on the empty cluster, ensure-index of "products" creates
on the first run and answers AlreadyExists with no create request and no
state change on the second; on a cluster already holding "products" it
has no effect. -/
theorem ensure_index_idempotent_witness :
    (ensureIndex get_product_mapping [] "products").1 = IndexOutcome.created ∧
    ensureIndex get_product_mapping
        (ensureIndex get_product_mapping [] "products").2.1 "products" =
      (IndexOutcome.alreadyExists, (ensureIndex get_product_mapping [] "products").2.1, false) ∧
    ensureIndex get_product_mapping ["products"] "products" =
      (IndexOutcome.alreadyExists, ["products"], false) :=
  ensure_index_idempotent get_product_mapping [] "products" (by simp)
    ["products"] (by simp)

/-- C3 counterexample: with the probe answering 404 and the create
request rejected with a 400 already-exists conflict, main prints the
create-failure message carrying the conflict body and never prints the
creation success message: the conflict is treated as a failure, not as a
success. -/
theorem conflict_create_treated_as_failure :
    PrintEvent.createFailed conflictBody ∈
      (runMain envAll (Except.ok ⟨404, Json.null⟩) (Except.ok ⟨400, conflictBody⟩)
        (Except.ok ⟨200, Json.null⟩)).prints ∧
    PrintEvent.indexCreated ∉
      (runMain envAll (Except.ok ⟨404, Json.null⟩) (Except.ok ⟨400, conflictBody⟩)
        (Except.ok ⟨200, Json.null⟩)).prints := by
  have hp : (runMain envAll (Except.ok ⟨404, Json.null⟩) (Except.ok ⟨400, conflictBody⟩)
      (Except.ok ⟨200, Json.null⟩)).prints
      = [PrintEvent.indexNotExists "products", PrintEvent.createFailed conflictBody,
         PrintEvent.bulkRespBody Json.null] := rfl
  rw [hp]
  constructor
  · exact List.Mem.tail _ (List.Mem.head _)
  · intro hmem
    simp at hmem

/-- C3 amended: when the probe is not a success and the engine rejects
the create request with a non-2xx conflict (such as an already-exists
rejection), main takes the failure branch: it prints the create-failure
message carrying the response body and prints neither success message. -/
theorem conflict_create_failure_branch (env : String → Option String)
    (cid k kid : String)
    (h1 : env "CLOUD_ID" = some cid) (h2 : env "API_KEY" = some k)
    (h3 : env "API_KEY_ID" = some kid)
    (eResp cResp : HttpResponse) (o3 : Except TransportErr HttpResponse)
    (hE : statusIsSuccess eResp.status = false)
    (hC : statusIsSuccess cResp.status = false) :
    PrintEvent.createFailed cResp.body
      ∈ (runMain env (Except.ok eResp) (Except.ok cResp) o3).prints ∧
    PrintEvent.indexCreated ∉ (runMain env (Except.ok eResp) (Except.ok cResp) o3).prints ∧
    PrintEvent.indexExists "products"
      ∉ (runMain env (Except.ok eResp) (Except.ok cResp) o3).prints := by
  have henv : requiredEnv env = some (cid, k, kid) := by
    simp [requiredEnv, h1, h2, h3]
  have hrun : runMain env (Except.ok eResp) (Except.ok cResp) o3
      = runProvisionAndBulk (Except.ok eResp) (Except.ok cResp) o3 := by
    simp [runMain, henv]
  rw [hrun]
  cases o3 <;> simp [runProvisionAndBulk, runBulkStage, hE, hC]

/-- C3 amended witness: the failure branch at the concrete conflict
rejection. -/
theorem conflict_create_failure_branch_witness :
    PrintEvent.createFailed conflictBody ∈
      (runMain envAll (Except.ok ⟨404, Json.null⟩) (Except.ok ⟨400, conflictBody⟩)
        (Except.ok ⟨201, Json.null⟩)).prints ∧
    PrintEvent.indexCreated ∉
      (runMain envAll (Except.ok ⟨404, Json.null⟩) (Except.ok ⟨400, conflictBody⟩)
        (Except.ok ⟨201, Json.null⟩)).prints ∧
    PrintEvent.indexExists "products" ∉
      (runMain envAll (Except.ok ⟨404, Json.null⟩) (Except.ok ⟨400, conflictBody⟩)
        (Except.ok ⟨201, Json.null⟩)).prints :=
  conflict_create_failure_branch envAll "x" "x" "x" rfl rfl rfl
    ⟨404, Json.null⟩ ⟨400, conflictBody⟩ (Except.ok ⟨201, Json.null⟩) rfl rfl

/-- C4 counterexample: with the probe answering 404 and the create
request rejected with a 400 response, main still issues the bulk request
and exits with code 0: the provisioning failure is not fatal and the
process does continue to ingestion. -/
theorem create_failure_not_fatal :
    (runMain envAll (Except.ok ⟨404, Json.null⟩)
      (Except.ok ⟨400, Json.str "mapper_parsing_exception"⟩)
      (Except.ok ⟨200, Json.null⟩)).exitCode = 0 ∧
    (runMain envAll (Except.ok ⟨404, Json.null⟩)
      (Except.ok ⟨400, Json.str "mapper_parsing_exception"⟩)
      (Except.ok ⟨200, Json.null⟩)).requests
      = [Request.indicesExists "products",
         Request.indicesCreate "products" get_product_mapping,
         Request.bulk "products" (bulkCreateBody generate_product_data)] :=
  ⟨rfl, rfl⟩

/-- C4 amended: a non-2xx create response is reported as a failure
carrying the response body, but it is not fatal: main still issues the
bulk request, and when the bulk call receives a response the process
exits with code 0. -/
theorem create_failure_continues_to_bulk (env : String → Option String)
    (cid k kid : String)
    (h1 : env "CLOUD_ID" = some cid) (h2 : env "API_KEY" = some k)
    (h3 : env "API_KEY_ID" = some kid)
    (eResp cResp bResp : HttpResponse)
    (hE : statusIsSuccess eResp.status = false)
    (hC : statusIsSuccess cResp.status = false) :
    PrintEvent.createFailed cResp.body
      ∈ (runMain env (Except.ok eResp) (Except.ok cResp) (Except.ok bResp)).prints ∧
    Request.bulk "products" (bulkCreateBody generate_product_data)
      ∈ (runMain env (Except.ok eResp) (Except.ok cResp) (Except.ok bResp)).requests ∧
    (runMain env (Except.ok eResp) (Except.ok cResp) (Except.ok bResp)).exitCode = 0 := by
  have henv : requiredEnv env = some (cid, k, kid) := by
    simp [requiredEnv, h1, h2, h3]
  have hrun : runMain env (Except.ok eResp) (Except.ok cResp) (Except.ok bResp)
      = runProvisionAndBulk (Except.ok eResp) (Except.ok cResp) (Except.ok bResp) := by
    simp [runMain, henv]
  rw [hrun]
  simp [runProvisionAndBulk, runBulkStage, hE, hC]

/-- C4 amended witness: the non-fatal continuation at a concrete create
rejection. -/
theorem create_failure_continues_to_bulk_witness :
    PrintEvent.createFailed (Json.str "mapper_parsing_exception") ∈
      (runMain envAll (Except.ok ⟨404, Json.null⟩)
        (Except.ok ⟨400, Json.str "mapper_parsing_exception"⟩)
        (Except.ok ⟨200, Json.null⟩)).prints ∧
    Request.bulk "products" (bulkCreateBody generate_product_data) ∈
      (runMain envAll (Except.ok ⟨404, Json.null⟩)
        (Except.ok ⟨400, Json.str "mapper_parsing_exception"⟩)
        (Except.ok ⟨200, Json.null⟩)).requests ∧
    (runMain envAll (Except.ok ⟨404, Json.null⟩)
      (Except.ok ⟨400, Json.str "mapper_parsing_exception"⟩)
      (Except.ok ⟨200, Json.null⟩)).exitCode = 0 :=
  create_failure_continues_to_bulk envAll "x" "x" "x" rfl rfl rfl
    ⟨404, Json.null⟩ ⟨400, Json.str "mapper_parsing_exception"⟩ ⟨200, Json.null⟩ rfl rfl

/-- C5: when any of the three required environment values is absent, main
aborts before issuing any request (and before printing anything) and
exits with a non-zero code. -/
theorem missing_env_fails_before_requests (env : String → Option String)
    (o1 o2 o3 : Except TransportErr HttpResponse)
    (h : env "CLOUD_ID" = none ∨ env "API_KEY" = none ∨ env "API_KEY_ID" = none) :
    (runMain env o1 o2 o3).requests = [] ∧
    (runMain env o1 o2 o3).prints = [] ∧
    (runMain env o1 o2 o3).exitCode = 1 := by
  have henv : requiredEnv env = none := by
    rcases h with h | h | h
    · simp [requiredEnv, h]
    · cases hc : env "CLOUD_ID" <;> simp [requiredEnv, h, hc]
    · cases hc : env "CLOUD_ID" <;> cases hk : env "API_KEY" <;>
        simp [requiredEnv, h, hc, hk]
  simp [runMain, henv]

/-- C5 witness: with no environment variable set, main issues no request,
prints nothing and exits 1. -/
theorem missing_env_fails_witness :
    (runMain envNone (Except.ok ⟨200, Json.null⟩) (Except.ok ⟨200, Json.null⟩)
      (Except.ok ⟨200, Json.null⟩)).requests = [] ∧
    (runMain envNone (Except.ok ⟨200, Json.null⟩) (Except.ok ⟨200, Json.null⟩)
      (Except.ok ⟨200, Json.null⟩)).prints = [] ∧
    (runMain envNone (Except.ok ⟨200, Json.null⟩) (Except.ok ⟨200, Json.null⟩)
      (Except.ok ⟨200, Json.null⟩)).exitCode = 1 :=
  missing_env_fails_before_requests envNone (Except.ok ⟨200, Json.null⟩)
    (Except.ok ⟨200, Json.null⟩) (Except.ok ⟨200, Json.null⟩) (Or.inl rfl)

theorem create_request_body_eq (o1 o2 o3 : Except TransportErr HttpResponse)
    (name : String) (body : Json)
    (hmem : Request.indicesCreate name body ∈ (runProvisionAndBulk o1 o2 o3).requests) :
    name = "products" ∧ body = get_product_mapping := by
  cases o1 with
  | error e => simp [runProvisionAndBulk] at hmem
  | ok eResp =>
    cases hE : statusIsSuccess eResp.status with
    | true => cases o3 <;> simp [runProvisionAndBulk, runBulkStage, hE] at hmem
    | false =>
      cases o2 with
      | error e =>
        simp [runProvisionAndBulk, hE] at hmem
        exact hmem
      | ok cResp =>
        cases hC : statusIsSuccess cResp.status <;> cases o3 <;>
          simp [runProvisionAndBulk, runBulkStage, hE, hC] at hmem <;> exact hmem

/-- C9: the product mapping submitted on index creation has exactly the
six fields name and description (text with the standard analyzer),
category and brand (keyword), price and rating (float); the field names
are pairwise distinct; and every index-create request main ever issues
targets "products" and carries exactly this mapping value. -/
theorem product_mapping_fixed_fields :
    mappingProperties get_product_mapping = some [
      ("name", Json.obj [("type", Json.str "text"), ("analyzer", Json.str "standard")]),
      ("description", Json.obj [("type", Json.str "text"), ("analyzer", Json.str "standard")]),
      ("category", Json.obj [("type", Json.str "keyword")]),
      ("brand", Json.obj [("type", Json.str "keyword")]),
      ("price", Json.obj [("type", Json.str "float")]),
      ("rating", Json.obj [("type", Json.str "float")])] ∧
    (["name", "description", "category", "brand", "price", "rating"] : List String).Nodup ∧
    ∀ (env : String → Option String) (o1 o2 o3 : Except TransportErr HttpResponse)
      (name : String) (body : Json),
      Request.indicesCreate name body ∈ (runMain env o1 o2 o3).requests →
      name = "products" ∧ body = get_product_mapping := by
  refine ⟨rfl, by decide, ?_⟩
  intro env o1 o2 o3 name body hmem
  cases henv : requiredEnv env with
  | none => simp [runMain, henv] at hmem
  | some t =>
    rw [runMain, henv] at hmem
    exact create_request_body_eq o1 o2 o3 name body hmem

/-- C9 witness: the create request issued in the concrete run with a 404
probe targets "products" with the fixed mapping. -/
theorem product_mapping_fixed_fields_witness :
    "products" = "products" ∧ get_product_mapping = get_product_mapping :=
  product_mapping_fixed_fields.2.2 envAll (Except.ok ⟨404, Json.null⟩)
    (Except.ok ⟨200, Json.null⟩) (Except.ok ⟨200, Json.null⟩)
    "products" get_product_mapping (List.Mem.tail _ (List.Mem.head _))

theorem provision_attempts_create_iff (eResp : HttpResponse)
    (o2 o3 : Except TransportErr HttpResponse) :
    (Request.indicesCreate "products" get_product_mapping
        ∈ (runProvisionAndBulk (Except.ok eResp) o2 o3).requests)
      ↔ statusIsSuccess eResp.status = false := by
  cases hE : statusIsSuccess eResp.status with
  | true => cases o3 <;> simp [runProvisionAndBulk, runBulkStage, hE]
  | false =>
    cases o2 with
    | error e => simp [runProvisionAndBulk, hE]
    | ok cResp =>
      cases hC : statusIsSuccess cResp.status <;> cases o3 <;>
        simp [runProvisionAndBulk, runBulkStage, hE, hC]

/-- C10: main classifies the index as existing exactly when the probe
status is in the 2xx range, and for every non-success probe status —
including 401 or 500 — it takes the does-not-exist branch and attempts
index creation. -/
theorem probe_classification_2xx (env : String → Option String)
    (cid k kid : String)
    (h1 : env "CLOUD_ID" = some cid) (h2 : env "API_KEY" = some k)
    (h3 : env "API_KEY_ID" = some kid)
    (eResp : HttpResponse) (o2 o3 : Except TransportErr HttpResponse) :
    (statusIsSuccess eResp.status = true ↔ 200 ≤ eResp.status ∧ eResp.status < 300) ∧
    ((Request.indicesCreate "products" get_product_mapping
        ∈ (runMain env (Except.ok eResp) o2 o3).requests)
      ↔ ¬(200 ≤ eResp.status ∧ eResp.status < 300)) := by
  have henv : requiredEnv env = some (cid, k, kid) := by
    simp [requiredEnv, h1, h2, h3]
  have hrun : runMain env (Except.ok eResp) o2 o3
      = runProvisionAndBulk (Except.ok eResp) o2 o3 := by
    simp [runMain, henv]
  refine ⟨statusIsSuccess_iff eResp.status, ?_⟩
  rw [hrun, provision_attempts_create_iff, ← statusIsSuccess_iff]
  cases statusIsSuccess eResp.status <;> simp

/-- C10 witness: a 401 probe answer — an auth failure, not absence — is
classified as not existing, and the flow proceeds to attempt index
creation. -/
theorem probe_classification_2xx_witness :
    Request.indicesCreate "products" get_product_mapping ∈
      (runMain envAll (Except.ok ⟨401, Json.null⟩) (Except.ok ⟨200, Json.null⟩)
        (Except.ok ⟨200, Json.null⟩)).requests :=
  ((probe_classification_2xx envAll "x" "x" "x" rfl rfl rfl ⟨401, Json.null⟩
      (Except.ok ⟨200, Json.null⟩) (Except.ok ⟨200, Json.null⟩)).2).mpr (by decide)

end ElasticDemo
